import Mathlib

/-!
Shallow embedding of `pkg/telemetry/telemetryserviceevents.go` (livekit-server
telemetry dispatcher).  Each lifecycle entry point of the Go
`telemetryService` is translated into a pure Lean function from the service
state (the stats-worker registry, whether a webhook notifier is configured,
and the state of the external guid generator) to a new state together with an
ordered trace of the observable effects the Go code performs: metrics-sink
calls, registry lookups, per-worker operations, Delivery-Pool submissions and
analytics hand-offs.  Timestamps are modelled as integer unix seconds; the
dispatch-time clock (`timestamppb.Now()` / `time.Now().Unix()`) is passed in
as an explicit `now` argument.
-/

namespace Telemetry

/-- Mirrors `livekit.Room`: identity (`Sid`), display name, creation time
(unix seconds).  Go proto zero values are the empty string / 0. -/
structure Room where
  sid : String := ""
  name : String := ""
  creationTime : Int := 0
deriving DecidableEq, Repr

/-- Mirrors `livekit.ParticipantInfo` as used by the dispatcher: only the
identity (`Sid`) is read. -/
structure ParticipantInfo where
  sid : String := ""
deriving DecidableEq, Repr

/-- Mirrors `livekit.TrackInfo` as used by the dispatcher: identity (`Sid`)
and the string form of the type tag (`track.Type.String()`). -/
structure TrackInfo where
  sid : String := ""
  type : String := ""
deriving DecidableEq, Repr

/-- Mirrors `livekit.RecordingInfo` as used by the dispatcher: `Id` and
`RoomName`. -/
structure RecordingInfo where
  id : String := ""
  roomName : String := ""
deriving DecidableEq, Repr

/-- Mirrors `livekit.ClientInfo` as used by the dispatcher: only
`clientInfo.GetSdk()` is read (the SDK type tag, modelled as a string). -/
structure ClientInfo where
  sdk : String := ""
deriving DecidableEq, Repr

/-- Modelled from the spec: the per-participant `statsWorker` type
(`newStatsWorker`, its `roomID`/`roomName` fields, `RemoveBuffer`, `Close`)
lives in a file of this repository that is not under `src/`; §3 of the spec
describes it as holding the owning room id, the owning room name, the
participant id and a set of open per-track resource handles (`ssrc`
handles). -/
structure StatsWorker where
  roomID : String
  roomName : String
  participantID : String
  buffers : List Nat
deriving DecidableEq, Repr

/-- Modelled from the spec: `newStatsWorker(ctx, t, roomID, roomName,
participantID)` creates a fresh worker with no open per-track handles. -/
def newStatsWorker (roomID roomName participantID : String) : StatsWorker :=
  { roomID := roomID, roomName := roomName, participantID := participantID,
    buffers := [] }

/-- Modelled from the spec: `w.RemoveBuffer(ssrc)` releases the one per-track
resource handle identified by `ssrc` on the worker. -/
def StatsWorker.removeBuffer (w : StatsWorker) (ssrc : Nat) : StatsWorker :=
  { w with buffers := w.buffers.filter (fun s => s ≠ ssrc) }

/-- Modelled from the spec (external `utils.NewGuid` of livekit/protocol): a
freshly generated unique identifier, a fixed text part plus the serial number
of the generator state at the moment of generation. -/
structure Guid where
  pre : String
  serial : Nat
deriving DecidableEq, Repr

/-- Mirrors `livekit.WebhookEvent`: the event-type tag, the optional room /
participant / recording snapshots, and the `Id` / `CreatedAt` fields stamped
by `notifyEvent`. -/
structure WebhookEvent where
  event : String
  room : Option Room := none
  participant : Option ParticipantInfo := none
  recordingInfo : Option RecordingInfo := none
  id : Option Guid := none
  createdAt : Int := 0
deriving DecidableEq, Repr

/-- Mirrors `livekit.AnalyticsEventType` restricted to the ten tags this file
uses. -/
inductive AnalyticsEventType where
  | roomCreated
  | roomEnded
  | participantJoined
  | participantLeft
  | trackPublished
  | trackUnpublished
  | trackSubscribed
  | trackUnsubscribed
  | recordingStarted
  | recordingEnded
deriving DecidableEq, Repr

/-- Mirrors `livekit.AnalyticsEvent` as populated by the dispatcher; unset
proto fields keep their zero values. -/
structure AnalyticsEvent where
  type : AnalyticsEventType
  timestamp : Int
  roomSid : String := ""
  participantId : String := ""
  trackId : String := ""
  room : Option Room := none
  participant : Option ParticipantInfo := none
  track : Option TrackInfo := none
  sdkType : String := ""
  recordingId : String := ""
deriving DecidableEq, Repr

/-- Mirrors the prometheus metrics-sink calls made by the dispatcher
(`prometheus.RoomStarted()`, `prometheus.RoomEnded(createdAt)`, ...). -/
inductive MetricsCall where
  | roomStarted
  | roomEnded (createdAt : Int)
  | addParticipant
  | subParticipant
  | addPublishedTrack (trackType : String)
  | subPublishedTrack (trackType : String)
  | addSubscribedTrack (trackType : String)
  | subSubscribedTrack (trackType : String)
deriving DecidableEq, Repr

/-- One observable step of an entry point, in program order: a metrics-sink
call, a registry read (`t.workers[participantID]` under `RLock`) with its
result, a per-worker operation (`RemoveBuffer` / `Close`) applied to the
worker snapshot obtained from the registry, a task submission to the
Delivery Pool (`t.webhookPool.Submit`), or an analytics hand-off
(`t.analytics.SendEvent`). -/
inductive Effect where
  | metrics (m : MetricsCall)
  | registryGet (participantID : String) (result : Option StatsWorker)
  | removeBuffer (w : StatsWorker) (ssrc : Nat)
  | closeWorker (w : StatsWorker)
  | poolSubmit (ev : WebhookEvent)
  | sendEvent (ae : AnalyticsEvent)
deriving DecidableEq, Repr

/-- Registry lookup `m[sid]` on the association-list model of the Go map
`t.workers`. -/
def lookupWorker : List (String × StatsWorker) → String → Option StatsWorker
  | [], _ => none
  | (k, w) :: rest, sid => if k = sid then some w else lookupWorker rest sid

/-- Registry store `m[sid] = w` on the association-list model of the Go map:
replaces an existing entry for `sid`, otherwise appends one. -/
def insertWorker : List (String × StatsWorker) → String → StatsWorker →
    List (String × StatsWorker)
  | [], sid, w => [(sid, w)]
  | (k, v) :: rest, sid, w =>
    if k = sid then (sid, w) :: rest else (k, v) :: insertWorker rest sid w

/-- Registry delete `delete(m, sid)` on the association-list model of the Go
map. -/
def removeWorker : List (String × StatsWorker) → String →
    List (String × StatsWorker)
  | [], _ => []
  | (k, v) :: rest, sid =>
    if k = sid then rest else (k, v) :: removeWorker rest sid

/-- Go maps never hold two entries for one key; states built by the
dispatcher from an empty registry keep this invariant on the
association-list model. -/
def NodupKeys (m : List (String × StatsWorker)) : Prop :=
  (m.map Prod.fst).Nodup

instance : DecidablePred NodupKeys := fun m =>
  inferInstanceAs (Decidable (m.map Prod.fst).Nodup)

/-- Mirrors the `telemetryService` state read or written by this file: the
stats-worker registry `t.workers`, whether `t.notifier` is non-nil, and the
serial state of the external guid generator used by `utils.NewGuid`. -/
structure TelemetryService where
  workers : List (String × StatsWorker)
  notifierConfigured : Bool
  guidCounter : Nat
deriving DecidableEq, Repr

/-- Mirrors `notifyEvent`: when no notifier is configured it returns at once
(nothing queued, nothing logged); otherwise it stamps the event with
`CreatedAt = time.Now().Unix()` and `Id = utils.NewGuid("EV_")` and submits
the delivery task to the Delivery Pool. -/
def notifyEvent (t : TelemetryService) (event : WebhookEvent) (now : Int) :
    TelemetryService × List Effect :=
  if t.notifierConfigured then
    let stamped := { event with
      createdAt := now,
      id := some { pre := "EV_", serial := t.guidCounter } }
    ({ t with guidCounter := t.guidCounter + 1 }, [Effect.poolSubmit stamped])
  else
    (t, [])

/-- Mirrors `getRoomDetails`: one registry read under `RLock`; on a hit the
worker's `roomID`/`roomName`, on a miss the empty pair. -/
def getRoomDetails (t : TelemetryService) (participantID : String) :
    (String × String) × List Effect :=
  match lookupWorker t.workers participantID with
  | some w => ((w.roomID, w.roomName),
      [Effect.registryGet participantID (some w)])
  | none => (("", ""), [Effect.registryGet participantID none])

/-- Mirrors `RoomStarted`: metrics, webhook notify, then an analytics event
whose timestamp is the room's `CreationTime` (not the dispatch clock). -/
def RoomStarted (t : TelemetryService) (room : Room) (now : Int) :
    TelemetryService × List Effect :=
  let n := notifyEvent t { event := "room_started", room := some room } now
  (n.1,
    Effect.metrics MetricsCall.roomStarted ::
    n.2 ++
    [Effect.sendEvent {
      type := AnalyticsEventType.roomCreated,
      timestamp := room.creationTime,
      room := some room }])

/-- Mirrors `RoomEnded`: metrics (with the room creation time), webhook
notify, then an analytics event stamped with the dispatch clock. -/
def RoomEnded (t : TelemetryService) (room : Room) (now : Int) :
    TelemetryService × List Effect :=
  let n := notifyEvent t { event := "room_finished", room := some room } now
  (n.1,
    Effect.metrics (MetricsCall.roomEnded room.creationTime) ::
    n.2 ++
    [Effect.sendEvent {
      type := AnalyticsEventType.roomEnded,
      timestamp := now,
      roomSid := room.sid,
      room := some room }])

/-- Mirrors `ParticipantJoined`: store a fresh stats worker under the
participant's sid (under the write lock), then metrics, webhook notify and
the analytics event. -/
def ParticipantJoined (t : TelemetryService) (room : Room)
    (participant : ParticipantInfo) (clientInfo : ClientInfo) (now : Int) :
    TelemetryService × List Effect :=
  let w0 := newStatsWorker room.sid room.name participant.sid
  let t0 := { t with workers := insertWorker t.workers participant.sid w0 }
  let n := notifyEvent t0 {
      event := "participant_joined",
      room := some room,
      participant := some participant } now
  (n.1,
    Effect.metrics MetricsCall.addParticipant ::
    n.2 ++
    [Effect.sendEvent {
      type := AnalyticsEventType.participantJoined,
      timestamp := now,
      roomSid := room.sid,
      participant := some participant,
      room := some room,
      sdkType := clientInfo.sdk }])

/-- Mirrors `ParticipantLeft`: under the write lock, when a worker is present
for the sid it is closed and deleted from the registry (a no-op otherwise);
then metrics, webhook notify and the analytics event. -/
def ParticipantLeft (t : TelemetryService) (room : Room)
    (participant : ParticipantInfo) (now : Int) :
    TelemetryService × List Effect :=
  let removed :=
    match lookupWorker t.workers participant.sid with
    | some w =>
      ({ t with workers := removeWorker t.workers participant.sid },
        [Effect.closeWorker w])
    | none => (t, ([] : List Effect))
  let n := notifyEvent removed.1 {
      event := "participant_left",
      room := some room,
      participant := some participant } now
  (n.1,
    removed.2 ++
    Effect.metrics MetricsCall.subParticipant ::
    n.2 ++
    [Effect.sendEvent {
      type := AnalyticsEventType.participantLeft,
      timestamp := now,
      roomSid := room.sid,
      participantId := participant.sid,
      room := some room }])

/-- Mirrors `TrackPublished`: metrics, then a room-context lookup, then the
analytics event (no webhook step exists for track events). -/
def TrackPublished (t : TelemetryService) (participantID : String)
    (track : TrackInfo) (now : Int) : TelemetryService × List Effect :=
  let d := getRoomDetails t participantID
  (t,
    Effect.metrics (MetricsCall.addPublishedTrack track.type) ::
    d.2 ++
    [Effect.sendEvent {
      type := AnalyticsEventType.trackPublished,
      timestamp := now,
      roomSid := d.1.1,
      participantId := participantID,
      track := some track,
      room := some { name := d.1.2 } }])

/-- Mirrors `TrackUnpublished`: one registry read under `RLock`; on a hit the
room context is taken from that worker snapshot and `RemoveBuffer(ssrc)` is
applied to the same snapshot (the registry entry reflects the in-place
pointer mutation); then metrics and the analytics event. -/
def TrackUnpublished (t : TelemetryService) (participantID : String)
    (track : TrackInfo) (ssrc : Nat) (now : Int) :
    TelemetryService × List Effect :=
  match lookupWorker t.workers participantID with
  | some w =>
    ({ t with workers := insertWorker t.workers participantID (w.removeBuffer ssrc) },
      Effect.registryGet participantID (some w) ::
      Effect.removeBuffer w ssrc ::
      Effect.metrics (MetricsCall.subPublishedTrack track.type) ::
      [Effect.sendEvent {
        type := AnalyticsEventType.trackUnpublished,
        timestamp := now,
        roomSid := w.roomID,
        participantId := participantID,
        trackId := track.sid,
        room := some { name := w.roomName } }])
  | none =>
    (t,
      Effect.registryGet participantID none ::
      Effect.metrics (MetricsCall.subPublishedTrack track.type) ::
      [Effect.sendEvent {
        type := AnalyticsEventType.trackUnpublished,
        timestamp := now,
        roomSid := "",
        participantId := participantID,
        trackId := track.sid,
        room := some { name := "" } }])

/-- Mirrors `TrackSubscribed`: metrics, room-context lookup, analytics
event. -/
def TrackSubscribed (t : TelemetryService) (participantID : String)
    (track : TrackInfo) (now : Int) : TelemetryService × List Effect :=
  let d := getRoomDetails t participantID
  (t,
    Effect.metrics (MetricsCall.addSubscribedTrack track.type) ::
    d.2 ++
    [Effect.sendEvent {
      type := AnalyticsEventType.trackSubscribed,
      timestamp := now,
      roomSid := d.1.1,
      participantId := participantID,
      trackId := track.sid,
      room := some { name := d.1.2 } }])

/-- Mirrors `TrackUnsubscribed`: metrics, room-context lookup, analytics
event. -/
def TrackUnsubscribed (t : TelemetryService) (participantID : String)
    (track : TrackInfo) (now : Int) : TelemetryService × List Effect :=
  let d := getRoomDetails t participantID
  (t,
    Effect.metrics (MetricsCall.subSubscribedTrack track.type) ::
    d.2 ++
    [Effect.sendEvent {
      type := AnalyticsEventType.trackUnsubscribed,
      timestamp := now,
      roomSid := d.1.1,
      participantId := participantID,
      trackId := track.sid,
      room := some { name := d.1.2 } }])

/-- Mirrors `RecordingStarted`: webhook notify then the analytics event; no
metrics call and no registry interaction. -/
def RecordingStarted (t : TelemetryService) (ri : RecordingInfo)
    (now : Int) : TelemetryService × List Effect :=
  let n := notifyEvent t {
      event := "recording_started",
      recordingInfo := some ri } now
  (n.1,
    n.2 ++
    [Effect.sendEvent {
      type := AnalyticsEventType.recordingStarted,
      timestamp := now,
      recordingId := ri.id,
      room := some { name := ri.roomName } }])

/-- Mirrors `RecordingEnded`: webhook notify then the analytics event; no
metrics call and no registry interaction. -/
def RecordingEnded (t : TelemetryService) (ri : RecordingInfo)
    (now : Int) : TelemetryService × List Effect :=
  let n := notifyEvent t {
      event := "recording_finished",
      recordingInfo := some ri } now
  (n.1,
    n.2 ++
    [Effect.sendEvent {
      type := AnalyticsEventType.recordingEnded,
      timestamp := now,
      recordingId := ri.id,
      room := some { name := ri.roomName } }])

/-- Projection of a trace onto the metrics-sink calls it contains, in
order. -/
def metricsOf (effs : List Effect) : List MetricsCall :=
  effs.filterMap fun e =>
    match e with
    | Effect.metrics m => some m
    | _ => none

/-- Projection of a trace onto the webhook events submitted to the Delivery
Pool, in order. -/
def poolSubmits (effs : List Effect) : List WebhookEvent :=
  effs.filterMap fun e =>
    match e with
    | Effect.poolSubmit ev => some ev
    | _ => none

/-- Projection of a trace onto the analytics events handed to the Analytics
Client, in order. -/
def analyticsOf (effs : List Effect) : List AnalyticsEvent :=
  effs.filterMap fun e =>
    match e with
    | Effect.sendEvent ae => some ae
    | _ => none

/-- Projection of a trace onto the registry reads it contains, in order. -/
def registryGets (effs : List Effect) : List (String × Option StatsWorker) :=
  effs.filterMap fun e =>
    match e with
    | Effect.registryGet pid r => some (pid, r)
    | _ => none

/-- Projection of a trace onto the `RemoveBuffer` operations it contains, in
order, each with the worker snapshot it was applied to. -/
def removeBufferCalls (effs : List Effect) : List (StatsWorker × Nat) :=
  effs.filterMap fun e =>
    match e with
    | Effect.removeBuffer w s => some (w, s)
    | _ => none

/-- Projection of a trace onto the `Close` operations it contains, in order,
each with the worker snapshot it was applied to. -/
def closeCalls (effs : List Effect) : List StatsWorker :=
  effs.filterMap fun e =>
    match e with
    | Effect.closeWorker w => some w
    | _ => none

/-- One of the three sink hand-offs of an entry point: a metrics-counter
update, a webhook delivery task submission, or an analytics hand-off. -/
inductive SinkStep where
  | metricsStep
  | webhookStep
  | analyticsStep
deriving DecidableEq, Repr

/-- Projection of a trace onto the sink hand-offs it contains, in order,
forgetting payloads. -/
def sinkSteps (effs : List Effect) : List SinkStep :=
  effs.filterMap fun e =>
    match e with
    | Effect.metrics _ => some SinkStep.metricsStep
    | Effect.poolSubmit _ => some SinkStep.webhookStep
    | Effect.sendEvent _ => some SinkStep.analyticsStep
    | _ => none

theorem lookupWorker_insertWorker_self (m : List (String × StatsWorker))
    (k : String) (w : StatsWorker) :
    lookupWorker (insertWorker m k w) k = some w := by
  induction m with
  | nil => simp [insertWorker, lookupWorker]
  | cons hd tl ih =>
    by_cases h : hd.1 = k
    · simp [insertWorker, lookupWorker, h]
    · simp only [insertWorker, lookupWorker]
      rw [if_neg h]
      simp [lookupWorker, h, ih]

theorem removeWorker_of_lookup_none (m : List (String × StatsWorker))
    (k : String) (h : lookupWorker m k = none) :
    removeWorker m k = m := by
  induction m with
  | nil => rfl
  | cons hd tl ih =>
    simp only [lookupWorker] at h
    by_cases hk : hd.1 = k
    · rw [if_pos hk] at h; cases h
    · rw [if_neg hk] at h
      simp [removeWorker, hk, ih h]

theorem lookupWorker_none_of_not_mem_keys (m : List (String × StatsWorker))
    (k : String) (h : k ∉ m.map Prod.fst) :
    lookupWorker m k = none := by
  induction m with
  | nil => rfl
  | cons hd tl ih =>
    simp only [List.map_cons, List.mem_cons] at h
    push_neg at h
    simp only [lookupWorker]
    rw [if_neg (fun hk => h.1 hk.symm)]
    exact ih h.2

theorem lookupWorker_removeWorker_self (m : List (String × StatsWorker))
    (k : String) (h : NodupKeys m) :
    lookupWorker (removeWorker m k) k = none := by
  induction m with
  | nil => rfl
  | cons hd tl ih =>
    simp only [NodupKeys, List.map_cons, List.nodup_cons] at h
    by_cases hk : hd.1 = k
    · simp only [removeWorker]
      rw [if_pos hk]
      exact lookupWorker_none_of_not_mem_keys tl k (hk ▸ h.1)
    · simp only [removeWorker]
      rw [if_neg hk]
      simp [lookupWorker, hk]
      exact ih h.2

theorem mem_keys_insertWorker (m : List (String × StatsWorker))
    (k x : String) (w : StatsWorker) (hx : x ∈ (insertWorker m k w).map Prod.fst) :
    x = k ∨ x ∈ m.map Prod.fst := by
  induction m with
  | nil => simpa [insertWorker] using hx
  | cons hd tl ih =>
    by_cases hk : hd.1 = k
    · simp only [insertWorker] at hx
      rw [if_pos hk] at hx
      simp only [List.map_cons, List.mem_cons] at hx ⊢
      rcases hx with h | h
      · exact Or.inl h
      · exact Or.inr (Or.inr h)
    · simp only [insertWorker] at hx
      rw [if_neg hk] at hx
      simp only [List.map_cons, List.mem_cons] at hx ⊢
      rcases hx with h | h
      · exact Or.inr (Or.inl h)
      · rcases ih h with h' | h'
        · exact Or.inl h'
        · exact Or.inr (Or.inr h')

theorem nodupKeys_insertWorker (m : List (String × StatsWorker))
    (k : String) (w : StatsWorker) (h : NodupKeys m) :
    NodupKeys (insertWorker m k w) := by
  induction m with
  | nil => simp [insertWorker, NodupKeys]
  | cons hd tl ih =>
    simp only [NodupKeys, List.map_cons, List.nodup_cons] at h
    by_cases hk : hd.1 = k
    · simp only [insertWorker]
      rw [if_pos hk]
      simp only [NodupKeys, List.map_cons, List.nodup_cons]
      exact ⟨hk ▸ h.1, h.2⟩
    · simp only [insertWorker]
      rw [if_neg hk]
      simp only [NodupKeys, List.map_cons, List.nodup_cons]
      refine ⟨fun hx => ?_, ih h.2⟩
      rcases mem_keys_insertWorker tl k hd.1 w hx with h' | h'
      · exact hk h'
      · exact h.1 h'

/-- Concrete room used to evaluate the theorems below on explicit inputs. -/
def sampleRoom : Room := { sid := "R1", name := "Room A", creationTime := 100 }

/-- Concrete participant used to evaluate the theorems below. -/
def sampleParticipant : ParticipantInfo := { sid := "p1" }

/-- Concrete client info used to evaluate the theorems below. -/
def sampleClient : ClientInfo := { sdk := "GO" }

/-- Concrete track used to evaluate the theorems below. -/
def sampleTrack : TrackInfo := { sid := "T1", type := "AUDIO" }

/-- Concrete recording used to evaluate the theorems below. -/
def sampleRec : RecordingInfo := { id := "rec1", roomName := "Room A" }

/-- Concrete service state with an empty registry and a configured webhook
notifier. -/
def emptyService : TelemetryService :=
  { workers := [], notifierConfigured := true, guidCounter := 0 }

/-- Concrete worker used to evaluate the theorems below. -/
def sampleWorker : StatsWorker :=
  { roomID := "R1", roomName := "Room A", participantID := "p1",
    buffers := [7, 9] }

/-- Concrete service state holding `sampleWorker` for participant `p1`, with
a configured webhook notifier. -/
def sampleService : TelemetryService :=
  { workers := [("p1", sampleWorker)], notifierConfigured := true,
    guidCounter := 0 }

/-- C2: the analytics event emitted by `RoomStarted` carries the room's
creation time as its timestamp, while every other entry point (in particular
`RoomEnded`) stamps the dispatch-time clock; when the creation time differs
from the dispatch time, the `RoomStarted` and `RoomEnded` timestamps
differ. -/
theorem C2_analytics_timestamps (t : TelemetryService) (room : Room)
    (p : ParticipantInfo) (ci : ClientInfo) (track : TrackInfo)
    (ri : RecordingInfo) (pid : String) (ssrc : Nat) (now : Int)
    (h : room.creationTime ≠ now) :
    (analyticsOf (RoomStarted t room now).2).map AnalyticsEvent.timestamp
        = [room.creationTime] ∧
    (analyticsOf (RoomEnded t room now).2).map AnalyticsEvent.timestamp
        = [now] ∧
    (analyticsOf (ParticipantJoined t room p ci now).2).map
        AnalyticsEvent.timestamp = [now] ∧
    (analyticsOf (ParticipantLeft t room p now).2).map
        AnalyticsEvent.timestamp = [now] ∧
    (analyticsOf (TrackPublished t pid track now).2).map
        AnalyticsEvent.timestamp = [now] ∧
    (analyticsOf (TrackUnpublished t pid track ssrc now).2).map
        AnalyticsEvent.timestamp = [now] ∧
    (analyticsOf (TrackSubscribed t pid track now).2).map
        AnalyticsEvent.timestamp = [now] ∧
    (analyticsOf (TrackUnsubscribed t pid track now).2).map
        AnalyticsEvent.timestamp = [now] ∧
    (analyticsOf (RecordingStarted t ri now).2).map
        AnalyticsEvent.timestamp = [now] ∧
    (analyticsOf (RecordingEnded t ri now).2).map
        AnalyticsEvent.timestamp = [now] ∧
    (analyticsOf (RoomStarted t room now).2).map AnalyticsEvent.timestamp
        ≠ (analyticsOf (RoomEnded t room now).2).map
          AnalyticsEvent.timestamp := by
  have hstart : (analyticsOf (RoomStarted t room now).2).map
      AnalyticsEvent.timestamp = [room.creationTime] := by
    by_cases hc : t.notifierConfigured <;>
      simp [RoomStarted, notifyEvent, analyticsOf, hc]
  have hend : (analyticsOf (RoomEnded t room now).2).map
      AnalyticsEvent.timestamp = [now] := by
    by_cases hc : t.notifierConfigured <;>
      simp [RoomEnded, notifyEvent, analyticsOf, hc]
  refine ⟨hstart, hend, ?_, ?_, ?_, ?_, ?_, ?_, ?_, ?_, ?_⟩
  · by_cases hc : t.notifierConfigured <;>
      simp [ParticipantJoined, notifyEvent, analyticsOf, hc]
  · rcases hw : lookupWorker t.workers p.sid with _ | w <;>
      by_cases hc : t.notifierConfigured <;>
      simp [ParticipantLeft, notifyEvent, analyticsOf, hw, hc]
  · simp [TrackPublished, getRoomDetails, analyticsOf]
    rcases lookupWorker t.workers pid with _ | w <;> simp [analyticsOf]
  · rcases hw : lookupWorker t.workers pid with _ | w <;>
      simp [TrackUnpublished, analyticsOf, hw]
  · simp [TrackSubscribed, getRoomDetails, analyticsOf]
    rcases lookupWorker t.workers pid with _ | w <;> simp [analyticsOf]
  · simp [TrackUnsubscribed, getRoomDetails, analyticsOf]
    rcases lookupWorker t.workers pid with _ | w <;> simp [analyticsOf]
  · by_cases hc : t.notifierConfigured <;>
      simp [RecordingStarted, notifyEvent, analyticsOf, hc]
  · by_cases hc : t.notifierConfigured <;>
      simp [RecordingEnded, notifyEvent, analyticsOf, hc]
  · rw [hstart, hend]
    simp [h]

/-- C4: `ParticipantJoined` followed immediately by a room-context lookup for
the same participant returns exactly the room id and name supplied at
join. -/
theorem C4_join_then_lookup (t : TelemetryService) (room : Room)
    (p : ParticipantInfo) (ci : ClientInfo) (now : Int) :
    (getRoomDetails (ParticipantJoined t room p ci now).1 p.sid).1
      = (room.sid, room.name) := by
  by_cases hc : t.notifierConfigured <;>
    simp [ParticipantJoined, notifyEvent, getRoomDetails, hc,
      lookupWorker_insertWorker_self, newStatsWorker]

/-- Witness for C2 at concrete inputs: creation time 100, dispatch time 5. -/
theorem C2_analytics_timestamps_witness :
    sampleRoom.creationTime ≠ (5 : Int) ∧
    ((analyticsOf (RoomStarted emptyService sampleRoom 5).2).map
        AnalyticsEvent.timestamp = [sampleRoom.creationTime] ∧
    (analyticsOf (RoomEnded emptyService sampleRoom 5).2).map
        AnalyticsEvent.timestamp = [(5 : Int)] ∧
    (analyticsOf (ParticipantJoined emptyService sampleRoom
        sampleParticipant sampleClient 5).2).map
        AnalyticsEvent.timestamp = [(5 : Int)] ∧
    (analyticsOf (ParticipantLeft emptyService sampleRoom
        sampleParticipant 5).2).map
        AnalyticsEvent.timestamp = [(5 : Int)] ∧
    (analyticsOf (TrackPublished emptyService "p1" sampleTrack 5).2).map
        AnalyticsEvent.timestamp = [(5 : Int)] ∧
    (analyticsOf (TrackUnpublished emptyService "p1" sampleTrack 7 5).2).map
        AnalyticsEvent.timestamp = [(5 : Int)] ∧
    (analyticsOf (TrackSubscribed emptyService "p1" sampleTrack 5).2).map
        AnalyticsEvent.timestamp = [(5 : Int)] ∧
    (analyticsOf (TrackUnsubscribed emptyService "p1" sampleTrack 5).2).map
        AnalyticsEvent.timestamp = [(5 : Int)] ∧
    (analyticsOf (RecordingStarted emptyService sampleRec 5).2).map
        AnalyticsEvent.timestamp = [(5 : Int)] ∧
    (analyticsOf (RecordingEnded emptyService sampleRec 5).2).map
        AnalyticsEvent.timestamp = [(5 : Int)] ∧
    (analyticsOf (RoomStarted emptyService sampleRoom 5).2).map
        AnalyticsEvent.timestamp
      ≠ (analyticsOf (RoomEnded emptyService sampleRoom 5).2).map
        AnalyticsEvent.timestamp) :=
  ⟨by decide,
    C2_analytics_timestamps emptyService sampleRoom sampleParticipant
      sampleClient sampleTrack sampleRec "p1" 7 5 (by decide)⟩

/-- C3: `ParticipantJoined(p, room)` followed by `ParticipantLeft(p)` leaves
the registry with no entry for `p`, so a subsequent room-context lookup for
`p` returns the empty not-found context, never the worker created at
join. -/
theorem C3_join_left_lookup_empty (t : TelemetryService) (room room2 : Room)
    (p : ParticipantInfo) (ci : ClientInfo) (now now2 : Int)
    (h : NodupKeys t.workers) :
    (getRoomDetails
      (ParticipantLeft (ParticipantJoined t room p ci now).1 room2 p now2).1
      p.sid).1 = ("", "") := by
  have hj : (ParticipantJoined t room p ci now).1.workers
      = insertWorker t.workers p.sid
        (newStatsWorker room.sid room.name p.sid) := by
    by_cases hc : t.notifierConfigured <;>
      simp [ParticipantJoined, notifyEvent, hc]
  have hlook : lookupWorker (ParticipantJoined t room p ci now).1.workers
      p.sid = some (newStatsWorker room.sid room.name p.sid) := by
    rw [hj]; exact lookupWorker_insertWorker_self _ _ _
  have hleft :
      (ParticipantLeft (ParticipantJoined t room p ci now).1 room2 p
        now2).1.workers
      = removeWorker (ParticipantJoined t room p ci now).1.workers p.sid := by
    by_cases hc :
        (ParticipantJoined t room p ci now).1.notifierConfigured <;>
      simp [ParticipantLeft, hlook, notifyEvent, hc]
  have hnone :
      lookupWorker
        (ParticipantLeft (ParticipantJoined t room p ci now).1 room2 p
          now2).1.workers p.sid = none := by
    rw [hleft, hj]
    exact lookupWorker_removeWorker_self _ _ (nodupKeys_insertWorker _ _ _ h)
  simp [getRoomDetails, hnone]

/-- Witness for C3 at concrete inputs: join then leave `p1`, the lookup
returns the empty context. -/
theorem C3_join_left_lookup_empty_witness :
    NodupKeys emptyService.workers ∧
    (getRoomDetails
      (ParticipantLeft
        (ParticipantJoined emptyService sampleRoom sampleParticipant
          sampleClient 5).1 sampleRoom sampleParticipant 6).1
      sampleParticipant.sid).1 = ("", "") :=
  ⟨by decide,
    C3_join_left_lookup_empty emptyService sampleRoom sampleRoom
      sampleParticipant sampleClient 5 6 (by decide)⟩

/-- C5: a room-context lookup for an identity with no active worker returns
the empty pair rather than failing, and `TrackUnpublished` for such an
identity still dispatches an analytics event whose `RoomSid` and `Room.Name`
are empty. -/
theorem C5_missing_worker_graceful (t : TelemetryService) (pid : String)
    (track : TrackInfo) (ssrc : Nat) (now : Int)
    (h : lookupWorker t.workers pid = none) :
    (getRoomDetails t pid).1 = ("", "") ∧
    analyticsOf (TrackUnpublished t pid track ssrc now).2 =
      [{ type := AnalyticsEventType.trackUnpublished,
         timestamp := now,
         roomSid := "",
         participantId := pid,
         trackId := track.sid,
         room := some { name := "" } }] := by
  constructor
  · simp [getRoomDetails, h]
  · simp [TrackUnpublished, h, analyticsOf]

/-- Witness for C5 at concrete inputs: the empty registry misses `p1`. -/
theorem C5_missing_worker_graceful_witness :
    lookupWorker emptyService.workers "p1" = none ∧
    ((getRoomDetails emptyService "p1").1 = ("", "") ∧
    analyticsOf (TrackUnpublished emptyService "p1" sampleTrack 7 5).2 =
      [{ type := AnalyticsEventType.trackUnpublished,
         timestamp := 5,
         roomSid := "",
         participantId := "p1",
         trackId := sampleTrack.sid,
         room := some { name := "" } }]) :=
  ⟨by decide,
    C5_missing_worker_graceful emptyService "p1" sampleTrack 7 5 (by decide)⟩

/-- C6: with no webhook notifier configured, every entry point submits zero
tasks to the Delivery Pool (so nothing is queued and no webhook logging can
occur, the only webhook logging sitting inside submitted delivery tasks),
while the metrics calls and the analytics hand-offs are exactly those made
with a notifier configured. -/
theorem C6_notifier_unset_skips_webhook (t : TelemetryService) (room : Room)
    (p : ParticipantInfo) (ci : ClientInfo) (track : TrackInfo)
    (ri : RecordingInfo) (pid : String) (ssrc : Nat) (now : Int) :
    (poolSubmits (RoomStarted { t with notifierConfigured := false } room
        now).2 = [] ∧
      metricsOf (RoomStarted { t with notifierConfigured := false } room
          now).2
        = metricsOf (RoomStarted { t with notifierConfigured := true } room
          now).2 ∧
      analyticsOf (RoomStarted { t with notifierConfigured := false } room
          now).2
        = analyticsOf (RoomStarted { t with notifierConfigured := true } room
          now).2) ∧
    (poolSubmits (RoomEnded { t with notifierConfigured := false } room
        now).2 = [] ∧
      metricsOf (RoomEnded { t with notifierConfigured := false } room now).2
        = metricsOf (RoomEnded { t with notifierConfigured := true } room
          now).2 ∧
      analyticsOf (RoomEnded { t with notifierConfigured := false } room
          now).2
        = analyticsOf (RoomEnded { t with notifierConfigured := true } room
          now).2) ∧
    (poolSubmits (ParticipantJoined { t with notifierConfigured := false }
        room p ci now).2 = [] ∧
      metricsOf (ParticipantJoined { t with notifierConfigured := false }
          room p ci now).2
        = metricsOf (ParticipantJoined { t with notifierConfigured := true }
          room p ci now).2 ∧
      analyticsOf (ParticipantJoined { t with notifierConfigured := false }
          room p ci now).2
        = analyticsOf (ParticipantJoined { t with notifierConfigured := true }
          room p ci now).2) ∧
    (poolSubmits (ParticipantLeft { t with notifierConfigured := false }
        room p now).2 = [] ∧
      metricsOf (ParticipantLeft { t with notifierConfigured := false }
          room p now).2
        = metricsOf (ParticipantLeft { t with notifierConfigured := true }
          room p now).2 ∧
      analyticsOf (ParticipantLeft { t with notifierConfigured := false }
          room p now).2
        = analyticsOf (ParticipantLeft { t with notifierConfigured := true }
          room p now).2) ∧
    (poolSubmits (TrackPublished { t with notifierConfigured := false } pid
        track now).2 = [] ∧
      metricsOf (TrackPublished { t with notifierConfigured := false } pid
          track now).2
        = metricsOf (TrackPublished { t with notifierConfigured := true } pid
          track now).2 ∧
      analyticsOf (TrackPublished { t with notifierConfigured := false } pid
          track now).2
        = analyticsOf (TrackPublished { t with notifierConfigured := true }
          pid track now).2) ∧
    (poolSubmits (TrackUnpublished { t with notifierConfigured := false }
        pid track ssrc now).2 = [] ∧
      metricsOf (TrackUnpublished { t with notifierConfigured := false } pid
          track ssrc now).2
        = metricsOf (TrackUnpublished { t with notifierConfigured := true }
          pid track ssrc now).2 ∧
      analyticsOf (TrackUnpublished { t with notifierConfigured := false }
          pid track ssrc now).2
        = analyticsOf (TrackUnpublished { t with notifierConfigured := true }
          pid track ssrc now).2) ∧
    (poolSubmits (TrackSubscribed { t with notifierConfigured := false } pid
        track now).2 = [] ∧
      metricsOf (TrackSubscribed { t with notifierConfigured := false } pid
          track now).2
        = metricsOf (TrackSubscribed { t with notifierConfigured := true }
          pid track now).2 ∧
      analyticsOf (TrackSubscribed { t with notifierConfigured := false }
          pid track now).2
        = analyticsOf (TrackSubscribed { t with notifierConfigured := true }
          pid track now).2) ∧
    (poolSubmits (TrackUnsubscribed { t with notifierConfigured := false }
        pid track now).2 = [] ∧
      metricsOf (TrackUnsubscribed { t with notifierConfigured := false }
          pid track now).2
        = metricsOf (TrackUnsubscribed { t with notifierConfigured := true }
          pid track now).2 ∧
      analyticsOf (TrackUnsubscribed { t with notifierConfigured := false }
          pid track now).2
        = analyticsOf (TrackUnsubscribed { t with notifierConfigured := true }
          pid track now).2) ∧
    (poolSubmits (RecordingStarted { t with notifierConfigured := false } ri
        now).2 = [] ∧
      metricsOf (RecordingStarted { t with notifierConfigured := false } ri
          now).2
        = metricsOf (RecordingStarted { t with notifierConfigured := true }
          ri now).2 ∧
      analyticsOf (RecordingStarted { t with notifierConfigured := false }
          ri now).2
        = analyticsOf (RecordingStarted { t with notifierConfigured := true }
          ri now).2) ∧
    (poolSubmits (RecordingEnded { t with notifierConfigured := false } ri
        now).2 = [] ∧
      metricsOf (RecordingEnded { t with notifierConfigured := false } ri
          now).2
        = metricsOf (RecordingEnded { t with notifierConfigured := true } ri
          now).2 ∧
      analyticsOf (RecordingEnded { t with notifierConfigured := false } ri
          now).2
        = analyticsOf (RecordingEnded { t with notifierConfigured := true }
          ri now).2) := by
  refine ⟨?_, ?_, ?_, ?_, ?_, ?_, ?_, ?_, ?_, ?_⟩
  · simp [RoomStarted, notifyEvent, poolSubmits, metricsOf, analyticsOf]
  · simp [RoomEnded, notifyEvent, poolSubmits, metricsOf, analyticsOf]
  · simp [ParticipantJoined, notifyEvent, poolSubmits, metricsOf,
      analyticsOf]
  · rcases hw : lookupWorker t.workers p.sid with _ | w <;>
      simp [ParticipantLeft, hw, notifyEvent, poolSubmits, metricsOf,
        analyticsOf]
  · rcases hw : lookupWorker t.workers pid with _ | w <;>
      simp [TrackPublished, getRoomDetails, hw, poolSubmits, metricsOf,
        analyticsOf]
  · rcases hw : lookupWorker t.workers pid with _ | w <;>
      simp [TrackUnpublished, hw, poolSubmits, metricsOf, analyticsOf]
  · rcases hw : lookupWorker t.workers pid with _ | w <;>
      simp [TrackSubscribed, getRoomDetails, hw, poolSubmits, metricsOf,
        analyticsOf]
  · rcases hw : lookupWorker t.workers pid with _ | w <;>
      simp [TrackUnsubscribed, getRoomDetails, hw, poolSubmits, metricsOf,
        analyticsOf]
  · simp [RecordingStarted, notifyEvent, poolSubmits, metricsOf,
      analyticsOf]
  · simp [RecordingEnded, notifyEvent, poolSubmits, metricsOf, analyticsOf]

/-- C7: `TrackUnpublished` reads the registry exactly once; the room id and
room name placed into the analytics event and the `RemoveBuffer` release are
all taken from the single worker snapshot returned by that one lookup. -/
theorem C7_unpublish_single_lookup (t : TelemetryService) (pid : String)
    (track : TrackInfo) (ssrc : Nat) (now : Int) (w : StatsWorker)
    (h : lookupWorker t.workers pid = some w) :
    registryGets (TrackUnpublished t pid track ssrc now).2
        = [(pid, some w)] ∧
    removeBufferCalls (TrackUnpublished t pid track ssrc now).2
        = [(w, ssrc)] ∧
    (analyticsOf (TrackUnpublished t pid track ssrc now).2).map
        (fun ae => (ae.roomSid, ae.room))
      = [(w.roomID, some ({ name := w.roomName } : Room))] := by
  simp [TrackUnpublished, h, registryGets, removeBufferCalls, analyticsOf]

/-- Witness for C7 at concrete inputs: `sampleService` holds `sampleWorker`
under `p1`. -/
theorem C7_unpublish_single_lookup_witness :
    lookupWorker sampleService.workers "p1" = some sampleWorker ∧
    (registryGets (TrackUnpublished sampleService "p1" sampleTrack 7 5).2
        = [("p1", some sampleWorker)] ∧
    removeBufferCalls (TrackUnpublished sampleService "p1" sampleTrack 7
        5).2 = [(sampleWorker, 7)] ∧
    (analyticsOf (TrackUnpublished sampleService "p1" sampleTrack 7 5).2).map
        (fun ae => (ae.roomSid, ae.room))
      = [(sampleWorker.roomID,
          some ({ name := sampleWorker.roomName } : Room))]) :=
  ⟨by decide,
    C7_unpublish_single_lookup sampleService "p1" sampleTrack 7 5
      sampleWorker (by decide)⟩

/-- C8: `ParticipantLeft` for an identity with no worker in the registry
leaves the registry unchanged and closes nothing, and removing the same
participant twice has the same registry effect as removing it once. -/
theorem C8_left_idempotent (t : TelemetryService) (room room2 : Room)
    (p : ParticipantInfo) (now now2 : Int) (h : NodupKeys t.workers) :
    (lookupWorker t.workers p.sid = none →
      (ParticipantLeft t room p now).1.workers = t.workers ∧
      closeCalls (ParticipantLeft t room p now).2 = []) ∧
    (ParticipantLeft (ParticipantLeft t room p now).1 room2 p now2).1.workers
      = (ParticipantLeft t room p now).1.workers := by
  have hworkers : ∀ (s : TelemetryService) (r : Room) (n : Int),
      (ParticipantLeft s r p n).1.workers =
        (match lookupWorker s.workers p.sid with
         | some _ => removeWorker s.workers p.sid
         | none => s.workers) := by
    intro s r n
    rcases hw : lookupWorker s.workers p.sid with _ | w <;>
      by_cases hc : s.notifierConfigured <;>
      simp [ParticipantLeft, hw, notifyEvent, hc]
  constructor
  · intro habs
    constructor
    · rw [hworkers t room now, habs]
    · by_cases hc : t.notifierConfigured <;>
        simp [ParticipantLeft, habs, notifyEvent, hc, closeCalls]
  · rcases hw : lookupWorker t.workers p.sid with _ | w
    · have h1 : (ParticipantLeft t room p now).1.workers = t.workers := by
        rw [hworkers t room now, hw]
      rw [hworkers (ParticipantLeft t room p now).1 room2 now2, h1, hw]
    · have h1 : (ParticipantLeft t room p now).1.workers
          = removeWorker t.workers p.sid := by
        rw [hworkers t room now, hw]
      have h2 : lookupWorker (ParticipantLeft t room p now).1.workers p.sid
          = none := by
        rw [h1]; exact lookupWorker_removeWorker_self _ _ h
      rw [hworkers (ParticipantLeft t room p now).1 room2 now2, h2]

/-- Witness for C8 at concrete inputs: the empty registry misses `p1` and a
double leave equals a single leave. -/
theorem C8_left_idempotent_witness :
    NodupKeys emptyService.workers ∧
    ((lookupWorker emptyService.workers sampleParticipant.sid = none →
      (ParticipantLeft emptyService sampleRoom sampleParticipant
        5).1.workers = emptyService.workers ∧
      closeCalls (ParticipantLeft emptyService sampleRoom sampleParticipant
        5).2 = []) ∧
    (ParticipantLeft
      (ParticipantLeft emptyService sampleRoom sampleParticipant 5).1
      sampleRoom sampleParticipant 6).1.workers
      = (ParticipantLeft emptyService sampleRoom sampleParticipant
        5).1.workers) :=
  ⟨by decide,
    C8_left_idempotent emptyService sampleRoom sampleRoom sampleParticipant
      5 6 (by decide)⟩

/-- C9: every webhook event handed to the Delivery Pool is stamped at the
moment of hand-off with the current time and a freshly generated identifier
(the serial of the guid generator, which advances by one per hand-off); in
particular two consecutive `ParticipantJoined` dispatches produce two
distinct webhook event ids. -/
theorem C9_webhook_ids_fresh (t : TelemetryService) (ev : WebhookEvent)
    (room room2 : Room) (p p2 : ParticipantInfo) (ci ci2 : ClientInfo)
    (now now2 : Int) (h : t.notifierConfigured = true) :
    poolSubmits (notifyEvent t ev now).2
      = [{ ev with
           createdAt := now,
           id := some { pre := "EV_", serial := t.guidCounter } }] ∧
    (notifyEvent t ev now).1.guidCounter = t.guidCounter + 1 ∧
    (poolSubmits (ParticipantJoined t room p ci now).2).map WebhookEvent.id
      = [some { pre := "EV_", serial := t.guidCounter }] ∧
    (poolSubmits (ParticipantJoined (ParticipantJoined t room p ci now).1
        room2 p2 ci2 now2).2).map WebhookEvent.id
      = [some { pre := "EV_", serial := t.guidCounter + 1 }] ∧
    (some { pre := "EV_", serial := t.guidCounter } : Option Guid)
      ≠ some { pre := "EV_", serial := t.guidCounter + 1 } := by
  refine ⟨?_, ?_, ?_, ?_, ?_⟩
  · simp [notifyEvent, h, poolSubmits]
  · simp [notifyEvent, h]
  · simp [ParticipantJoined, notifyEvent, h, poolSubmits]
  · simp [ParticipantJoined, notifyEvent, h, poolSubmits]
  · simp [Guid.mk.injEq]

/-- Witness for C9 at concrete inputs: two joins from the empty service
yield ids with serials 0 and 1. -/
theorem C9_webhook_ids_fresh_witness :
    emptyService.notifierConfigured = true ∧
    (poolSubmits (notifyEvent emptyService { event := "room_started" } 5).2
      = [{ event := "room_started",
           createdAt := 5,
           id := some { pre := "EV_", serial := emptyService.guidCounter } }] ∧
    (notifyEvent emptyService { event := "room_started" } 5).1.guidCounter
      = emptyService.guidCounter + 1 ∧
    (poolSubmits (ParticipantJoined emptyService sampleRoom
        sampleParticipant sampleClient 5).2).map WebhookEvent.id
      = [some { pre := "EV_", serial := emptyService.guidCounter }] ∧
    (poolSubmits (ParticipantJoined
        (ParticipantJoined emptyService sampleRoom sampleParticipant
          sampleClient 5).1 sampleRoom sampleParticipant sampleClient
        6).2).map WebhookEvent.id
      = [some { pre := "EV_", serial := emptyService.guidCounter + 1 }] ∧
    (some { pre := "EV_", serial := emptyService.guidCounter } : Option Guid)
      ≠ some { pre := "EV_", serial := emptyService.guidCounter + 1 }) :=
  ⟨by decide,
    C9_webhook_ids_fresh emptyService { event := "room_started" } sampleRoom
      sampleRoom sampleParticipant sampleParticipant sampleClient
      sampleClient 5 6 (by decide)⟩

/-- C10: a second `ParticipantJoined` for the same identity without an
intervening leave replaces the registry entry with a freshly created worker;
the dispatcher never calls `Close` (nor any per-track release) on the
displaced worker, so its open per-track handles are not released by the
registry. -/
theorem C10_double_join_replaces (t : TelemetryService) (room room2 : Room)
    (p : ParticipantInfo) (ci ci2 : ClientInfo) (now now2 : Int) :
    lookupWorker (ParticipantJoined (ParticipantJoined t room p ci now).1
        room2 p ci2 now2).1.workers p.sid
      = some (newStatsWorker room2.sid room2.name p.sid) ∧
    closeCalls (ParticipantJoined (ParticipantJoined t room p ci now).1
        room2 p ci2 now2).2 = [] ∧
    removeBufferCalls (ParticipantJoined (ParticipantJoined t room p ci
        now).1 room2 p ci2 now2).2 = [] := by
  have hworkers : ∀ (s : TelemetryService) (r : Room) (c : ClientInfo)
      (n : Int),
      (ParticipantJoined s r p c n).1.workers =
        insertWorker s.workers p.sid (newStatsWorker r.sid r.name p.sid) := by
    intro s r c n
    by_cases hc : s.notifierConfigured <;>
      simp [ParticipantJoined, notifyEvent, hc]
  refine ⟨?_, ?_, ?_⟩
  · rw [hworkers]; exact lookupWorker_insertWorker_self _ _ _
  · by_cases hc : t.notifierConfigured <;>
      simp [ParticipantJoined, notifyEvent, hc, closeCalls]
  · by_cases hc : t.notifierConfigured <;>
      simp [ParticipantJoined, notifyEvent, hc, removeBufferCalls]

/-- C1 as stated is false on the code: with a webhook notifier configured,
the track entry points submit no webhook delivery task at all (there is no
webhook event type for track transitions), and the recording entry points
perform no metrics update. -/
theorem C1_counterexample :
    sampleService.notifierConfigured = true ∧
    poolSubmits (TrackPublished sampleService "p1" sampleTrack 5).2 = [] ∧
    metricsOf (RecordingStarted sampleService sampleRec 5).2 = [] := by
  decide

/-- C1 amended: the room and participant entry points perform, in order, the
relevant metrics update, then (iff a notifier is configured) exactly one
webhook task submission, then the analytics hand-off; the track entry points
perform the metrics update then the analytics hand-off with no webhook
submission; the recording entry points perform the (notifier-conditional)
webhook submission then the analytics hand-off with no metrics update. -/
theorem C1_sink_order (t : TelemetryService) (room : Room)
    (p : ParticipantInfo) (ci : ClientInfo) (track : TrackInfo)
    (ri : RecordingInfo) (pid : String) (ssrc : Nat) (now : Int) :
    sinkSteps (RoomStarted t room now).2
      = SinkStep.metricsStep ::
        (if t.notifierConfigured then [SinkStep.webhookStep] else [])
        ++ [SinkStep.analyticsStep] ∧
    sinkSteps (RoomEnded t room now).2
      = SinkStep.metricsStep ::
        (if t.notifierConfigured then [SinkStep.webhookStep] else [])
        ++ [SinkStep.analyticsStep] ∧
    sinkSteps (ParticipantJoined t room p ci now).2
      = SinkStep.metricsStep ::
        (if t.notifierConfigured then [SinkStep.webhookStep] else [])
        ++ [SinkStep.analyticsStep] ∧
    sinkSteps (ParticipantLeft t room p now).2
      = SinkStep.metricsStep ::
        (if t.notifierConfigured then [SinkStep.webhookStep] else [])
        ++ [SinkStep.analyticsStep] ∧
    sinkSteps (TrackPublished t pid track now).2
      = [SinkStep.metricsStep, SinkStep.analyticsStep] ∧
    sinkSteps (TrackUnpublished t pid track ssrc now).2
      = [SinkStep.metricsStep, SinkStep.analyticsStep] ∧
    sinkSteps (TrackSubscribed t pid track now).2
      = [SinkStep.metricsStep, SinkStep.analyticsStep] ∧
    sinkSteps (TrackUnsubscribed t pid track now).2
      = [SinkStep.metricsStep, SinkStep.analyticsStep] ∧
    sinkSteps (RecordingStarted t ri now).2
      = (if t.notifierConfigured then [SinkStep.webhookStep] else [])
        ++ [SinkStep.analyticsStep] ∧
    sinkSteps (RecordingEnded t ri now).2
      = (if t.notifierConfigured then [SinkStep.webhookStep] else [])
        ++ [SinkStep.analyticsStep] := by
  refine ⟨?_, ?_, ?_, ?_, ?_, ?_, ?_, ?_, ?_, ?_⟩
  · by_cases hc : t.notifierConfigured <;>
      simp [RoomStarted, notifyEvent, hc, sinkSteps]
  · by_cases hc : t.notifierConfigured <;>
      simp [RoomEnded, notifyEvent, hc, sinkSteps]
  · by_cases hc : t.notifierConfigured <;>
      simp [ParticipantJoined, notifyEvent, hc, sinkSteps]
  · rcases hw : lookupWorker t.workers p.sid with _ | w <;>
      by_cases hc : t.notifierConfigured <;>
      simp [ParticipantLeft, hw, notifyEvent, hc, sinkSteps]
  · rcases hw : lookupWorker t.workers pid with _ | w <;>
      simp [TrackPublished, getRoomDetails, hw, sinkSteps]
  · rcases hw : lookupWorker t.workers pid with _ | w <;>
      simp [TrackUnpublished, hw, sinkSteps]
  · rcases hw : lookupWorker t.workers pid with _ | w <;>
      simp [TrackSubscribed, getRoomDetails, hw, sinkSteps]
  · rcases hw : lookupWorker t.workers pid with _ | w <;>
      simp [TrackUnsubscribed, getRoomDetails, hw, sinkSteps]
  · by_cases hc : t.notifierConfigured <;>
      simp [RecordingStarted, notifyEvent, hc, sinkSteps]
  · by_cases hc : t.notifierConfigured <;>
      simp [RecordingEnded, notifyEvent, hc, sinkSteps]

end Telemetry
